import Mathlib

/-!
Verification development for the bmt-mgmt client-side synchronization core.

The definitions below are a shallow embedding of the TypeScript source:
* `src/views/SessionDetailView.vue` — presence matrix, optimistic toggles
  with rollback, resync (`fetchData`), cost cache (`fetchCosts`), and the
  10-second polling fallback;
* `src/composables/usePaymentPolling.ts` — the payment status poller.

JavaScript `Record<string, T>` objects are modelled as association lists
(`objGet` / `objSet` mirror property read and property assignment).
Asynchronous remote calls are modelled by passing their eventual result
(`RpcResult`, `WriteResult`) as an explicit argument; the observable
side effects of an operation (remote writes, console logs, toasts) are
returned as an explicit effect list.
-/

set_option maxRecDepth 4096

/-- Property read on a JS object: first binding for the key, if any. -/
def objGet {α : Type} : List (String × α) → String → Option α
  | [], _ => none
  | (k, v) :: rest, k' => if k = k' then some v else objGet rest k'

/-- Property assignment on a JS object: overwrite the binding for the key,
or append a fresh binding when the key is absent. -/
def objSet {α : Type} : List (String × α) → String → α → List (String × α)
  | [], k, v => [(k, v)]
  | (k', v') :: rest, k, v =>
      if k' = k then (k', v) :: rest else (k', v') :: objSet rest k v

theorem objGet_objSet_same {α : Type} (m : List (String × α)) (k : String) (v : α) :
    objGet (objSet m k v) k = some v := by
  induction m with
  | nil => simp [objGet, objSet]
  | cons hd tl ih =>
    obtain ⟨k', v'⟩ := hd
    by_cases h : k' = k
    · simp [objGet, objSet, h]
    · simp [objGet, objSet, h, ih]

theorem objGet_objSet_other {α : Type} (m : List (String × α)) (k : String) (v : α)
    (k' : String) (h : k ≠ k') : objGet (objSet m k v) k' = objGet m k' := by
  induction m with
  | nil => simp [objGet, objSet, h]
  | cons hd tl ih =>
    obtain ⟨k₀, v₀⟩ := hd
    by_cases h₀ : k₀ = k
    · subst h₀
      simp [objGet, objSet, h]
    · simp [objGet, objSet, h₀, ih]

/-- One binding per assigned key, with a constant value: reading after a
left fold of assignments yields the constant on assigned keys and falls
through to the initial object otherwise. -/
theorem objGet_foldl_const {α β : Type} (key : α → String) (v : β) (xs : List α)
    (m₀ : List (String × β)) (k : String) :
    objGet (xs.foldl (fun m x => objSet m (key x) v) m₀) k =
      if k ∈ xs.map key then some v else objGet m₀ k := by
  induction xs generalizing m₀ with
  | nil => simp
  | cons x xs ih =>
    rw [List.foldl_cons, ih]
    by_cases hk : k ∈ xs.map key
    · simp [hk]
    · by_cases hx : key x = k
      · simp [hk, hx, objGet_objSet_same]
      · have hne : k ≠ key x := fun h => hx h.symm
        simp [hk, hx, Ne.symm hx, objGet_objSet_other _ _ _ _ hx]

/-! ## Data model (src/types/index.ts, fields used by the session view) -/

/-- Row of `session_intervals` (interface Interval of the source). -/
structure SessionInterval where
  id : String
  start_time : String
  end_time : String
  idx : Int
deriving DecidableEq, Repr

/-- Row of `session_registrations` (interface `SessionRegistration`,
fields used by the attendance logic). -/
structure SessionRegistration where
  id : String
  session_id : String
  member_id : String
  is_registered_not_attended : Bool
deriving DecidableEq, Repr

/-- Row of `interval_presence` (interface `IntervalPresence`). -/
structure IntervalPresence where
  id : String
  interval_id : String
  member_id : String
  is_present : Bool
deriving DecidableEq, Repr

/-- One entry of the `calculate_session_costs` result (interface `MemberCost`). -/
structure MemberCost where
  member_id : String
  display_name : String
  total_court_fee : Int
  total_shuttle_fee : Int
  final_total : Int
  intervals_count : Int
deriving DecidableEq, Repr

/-- `Record<string, boolean>`: one member row of the presence matrix. -/
abbrev MemberMatrix := List (String × Bool)

/-- `Record<string, Record<string, boolean>>`: memberId to intervalId to isPresent. -/
abbrev PresenceMatrix := List (String × MemberMatrix)

/-- Result of an awaited supabase call: `{ data, error }`. -/
structure RpcResult (α : Type) where
  dataField : Option α
  errorField : Option String
deriving DecidableEq, Repr

/-- Result of an awaited remote write (`upsert` / `update`). -/
inductive WriteResult where
  | ok
  | fault (msg : String)
deriving DecidableEq, Repr

/-- Observable side effects of the session-view operations. -/
inductive Effect where
  | upsertPresence (intervalId memberId : String) (isPresent : Bool)
  | updateAbsence (regId : String) (absent : Bool)
  | logError (context msg : String)
  | toastError (msg : String)
  | rpcCalculateCosts
  | abortView
deriving DecidableEq, Repr

/-- Local reactive state of `SessionDetailView.vue` that the synchronization
logic reads and writes (`presence`, `registrations`, `costs`, `pollTimer`). -/
structure SessionState where
  presence : PresenceMatrix
  registrations : List SessionRegistration
  costs : List MemberCost
  pollTimer : Bool
deriving DecidableEq, Repr

/-! ## Presence matrix construction (SessionDetailView.fetchData, lines 148-166) -/

/-- Inner loop of the matrix initialization: `memberMatrix[interval.id] = false`
for every fetched interval. -/
def initialMemberMatrix (intervals : List SessionInterval) : MemberMatrix :=
  intervals.foldl (fun mm i => objSet mm i.id false) []

/-- Outer loop of the matrix initialization: one all-false row per registration. -/
def buildMatrix (regs : List SessionRegistration) (intervals : List SessionInterval) :
    PresenceMatrix :=
  regs.foldl (fun m reg => objSet m reg.member_id (initialMemberMatrix intervals)) []

/-- Overlay of the fetched presence rows: `matrix[p.member_id][p.interval_id] =
p.is_present`, skipping rows whose member has no registration row. -/
def applyPresence (m : PresenceMatrix) : List IntervalPresence → PresenceMatrix
  | [] => m
  | p :: rest =>
      let m' := match objGet m p.member_id with
        | some mm => objSet m p.member_id (objSet mm p.interval_id p.is_present)
        | none => m
      applyPresence m' rest

/-- The dense matrix `fetchData` folds out of the fetched registrations,
intervals and presence rows. -/
def fetchDataMatrix (regs : List SessionRegistration) (intervals : List SessionInterval)
    (rows : List IntervalPresence) : PresenceMatrix :=
  applyPresence (buildMatrix regs intervals) rows

/-- `presence.value = matrix` (line 166): the resync result replaces the local
matrix wholesale. -/
def mergePresence (s : SessionState) (m : PresenceMatrix) : SessionState :=
  { s with presence := m }

/-- Cell lookup in a matrix: `matrix[memberId]?.[intervalId]`. -/
def cellGet (m : PresenceMatrix) (memberId intervalId : String) : Option Bool :=
  (objGet m memberId).bind (fun mm => objGet mm intervalId)

/-- Cell read as the template performs it:
`presence[reg.member_id]?.[interval.id] || false`. -/
def cellRead (m : PresenceMatrix) (memberId intervalId : String) : Bool :=
  (cellGet m memberId intervalId).getD false

/-- Read of one presence cell from the local state. -/
def readPresence (s : SessionState) (memberId intervalId : String) : Bool :=
  cellRead s.presence memberId intervalId

/-- Optimistic cell write (lines 330-332): guarded assignment
`if (presence.value[memberId]) presence.value[memberId][intervalId] = v`. -/
def setPresenceCell (s : SessionState) (memberId intervalId : String) (v : Bool) :
    SessionState :=
  match objGet s.presence memberId with
  | some mm => { s with presence := objSet s.presence memberId (objSet mm intervalId v) }
  | none => s

/-! ## Cost cache (SessionDetailView.fetchCosts, lines 312-319) -/

/-- Insertion step for the name sort; `localeCompare` with the vi locale is
modelled as the standard order on strings. -/
def insertByName (c : MemberCost) : List MemberCost → List MemberCost
  | [] => [c]
  | d :: ds =>
      if c.display_name ≤ d.display_name then c :: d :: ds else d :: insertByName c ds

/-- `sortedCosts.sort((a, b) => a.display_name.localeCompare(b.display_name, 'vi'))`. -/
def sortCosts (rows : List MemberCost) : List MemberCost :=
  rows.foldr insertByName []

/-- `fetchCosts`: on `!error && data` replace the cached costs with the sorted
result; otherwise leave the cache untouched. -/
def fetchCosts (s : SessionState) (r : RpcResult (List MemberCost)) : SessionState :=
  match r.errorField, r.dataField with
  | none, some rows => { s with costs := sortCosts rows }
  | _, _ => s

/-! ## Optimistic toggles (SessionDetailView.togglePresence / toggleAbsent) -/

/-- `togglePresence(memberId, intervalId)` (lines 321-356), with the awaited
upsert result and the cost-refresh result passed explicitly.  Returns the
final local state together with the emitted effects. -/
def togglePresence (auth : Bool) (s : SessionState) (memberId intervalId : String)
    (w : WriteResult) (cr : RpcResult (List MemberCost)) : SessionState × List Effect :=
  if !auth then (s, [])
  else
    match objGet s.presence memberId with
    | none => (s, [])
    | some mm =>
      let newValue := !((objGet mm intervalId).getD false)
      let s₁ := setPresenceCell s memberId intervalId newValue
      match w with
      | .fault msg =>
          (setPresenceCell s₁ memberId intervalId (!newValue),
           [Effect.upsertPresence intervalId memberId newValue,
            Effect.logError "Error toggling presence:" msg])
      | .ok =>
          (fetchCosts s₁ cr,
           [Effect.upsertPresence intervalId memberId newValue,
            Effect.rpcCalculateCosts])

/-- `regs.map` version of the in-place mutation
`reg.is_registered_not_attended = v` on the registration with the given id. -/
def setAbsentFlag (regs : List SessionRegistration) (regId : String) (v : Bool) :
    List SessionRegistration :=
  regs.map (fun r => if r.id = regId then { r with is_registered_not_attended := v } else r)

/-- Read of the absence flag of a registration row. -/
def readAbsent (regs : List SessionRegistration) (regId : String) : Option Bool :=
  (regs.find? (fun r => r.id = regId)).map (fun r => r.is_registered_not_attended)

/-- `toggleAbsent(reg)` (lines 358-377): optimistic flip of
`is_registered_not_attended`, reverted when the remote update fails. -/
def toggleAbsent (auth : Bool) (s : SessionState) (reg : SessionRegistration)
    (w : WriteResult) (cr : RpcResult (List MemberCost)) : SessionState × List Effect :=
  if !auth then (s, [])
  else
    let newValue := !reg.is_registered_not_attended
    let s₁ := { s with registrations := setAbsentFlag s.registrations reg.id newValue }
    match w with
    | .fault msg =>
        ({ s₁ with registrations := setAbsentFlag s₁.registrations reg.id (!newValue) },
         [Effect.updateAbsence reg.id newValue,
          Effect.logError "Error updating status:" msg])
    | .ok =>
        (fetchCosts s₁ cr,
         [Effect.updateAbsence reg.id newValue,
          Effect.rpcCalculateCosts])

/-- The 10-second polling fallback (lines 409-414): `if (pollTimer) return`,
otherwise register the interval timer.  The returned flag records whether a
new timer was created. -/
def viewStartPolling (s : SessionState) : SessionState × Bool :=
  if s.pollTimer then (s, false) else ({ s with pollTimer := true }, true)

/-- `stopPolling` of the view (lines 416-421). -/
def viewStopPolling (s : SessionState) : SessionState :=
  { s with pollTimer := false }

/-! ## Resync order (SessionDetailView.fetchData, lines 87-178) -/

/-- The remote operations `fetchData` can perform, in the order it issues
them.  `fetchPresence` records the interval-id filter of the
`.in('interval_id', ...)` query. -/
inductive FetchOp where
  | fetchSessionSummary
  | fetchIntervals
  | fetchMembers
  | fetchRegistrations
  | fetchPresence (intervalIds : List String)
  | fetchSnapshots
  | rpcCalculateCosts
deriving DecidableEq, Repr

def isIntervalsFetch : FetchOp → Bool
  | .fetchIntervals => true
  | _ => false

def isRegistrationsFetch : FetchOp → Bool
  | .fetchRegistrations => true
  | _ => false

def isPresenceFetch : FetchOp → Bool
  | .fetchPresence _ => true
  | _ => false

/-- Sequence of remote operations issued by `fetchData(refreshCostsOnly)` on
its happy path.  On a lightweight resync (`refreshCostsOnly = true`) the
interval and member fetches are skipped and the presence query is filtered by
the previously fetched interval list; on a full refresh it is filtered by the
freshly fetched one. -/
def fetchDataTrace (refreshCostsOnly : Bool)
    (prevIntervals fetchedIntervals : List SessionInterval) (closed : Bool) :
    List FetchOp :=
  let intervalsNow := if refreshCostsOnly then prevIntervals else fetchedIntervals
  [FetchOp.fetchSessionSummary]
    ++ (if refreshCostsOnly then [] else [FetchOp.fetchIntervals, FetchOp.fetchMembers])
    ++ [FetchOp.fetchRegistrations,
        FetchOp.fetchPresence (intervalsNow.map SessionInterval.id)]
    ++ (if closed then [FetchOp.fetchSnapshots] else [])
    ++ [FetchOp.rpcCalculateCosts]

/-- The matrix `fetchData` installs: presence table rows filtered to the
in-scope interval ids, folded over the dense all-false matrix. -/
def fetchDataResult (refreshCostsOnly : Bool)
    (prevIntervals fetchedIntervals : List SessionInterval)
    (regs : List SessionRegistration) (table : List IntervalPresence) :
    PresenceMatrix :=
  let intervalsNow := if refreshCostsOnly then prevIntervals else fetchedIntervals
  let presenceData :=
    table.filter (fun p => (intervalsNow.map SessionInterval.id).contains p.interval_id)
  fetchDataMatrix regs intervalsNow presenceData

/-! ## Payment status poller (src/composables/usePaymentPolling.ts) -/

/-- One entry of `PollResult.details`; the status union is kept as its
string serialization. -/
structure PaymentMemberDetail where
  name : String
  amount : Int
  status : String
deriving DecidableEq, Repr

/-- Interface `PollResult` of `usePaymentPolling.ts`. -/
structure PollResult where
  found : Bool
  total : Int
  paid : Int
  success : Bool
  details : List PaymentMemberDetail
deriving DecidableEq, Repr

/-- Reactive state of one `usePaymentPolling` instance: `data`, `isPolling`,
`error`, and whether the interval `timer` is registered. -/
structure PollerState where
  data : PollResult
  isPolling : Bool
  timer : Bool
  error : Option String
deriving DecidableEq, Repr

/-- Observable side effects of the poller: one status request per issued
`check_qr_status` call, plus console logging of failures. -/
inductive PollerEffect where
  | request (code : String)
  | logError (context msg : String)
deriving DecidableEq, Repr

/-- `stopPolling` (lines 62-68): clear the timer and leave the polling state. -/
def stopPolling (s : PollerState) : PollerState :=
  { s with timer := false, isPolling := false }

/-- `checkStatus` (lines 31-53), with the awaited `check_qr_status` result
passed explicitly.  An empty code issues no request; a failed request records
the message in `error` and is logged; a successful response replaces `data`
and, when it reports `success`, stops the poller. -/
def checkStatus (code : String) (s : PollerState) (rpc : RpcResult PollResult) :
    PollerState × List PollerEffect :=
  if code = "" then (s, [])
  else
    match rpc.errorField with
    | some msg =>
        ({ s with error := some msg },
         [PollerEffect.request code, PollerEffect.logError "Polling error:" msg])
    | none =>
        let s₁ := match rpc.dataField with
          | some result => { s with data := result }
          | none => s
        if s₁.data.success then (stopPolling s₁, [PollerEffect.request code])
        else (s₁, [PollerEffect.request code])

/-- `startPolling` (lines 55-60): a no-op while `isPolling`; otherwise mark
the poller active and register the interval timer (the launched initial
`checkStatus` completes later and is modelled by `checkStatus` itself).  The
returned flag records whether a new timer was created. -/
def startPolling (s : PollerState) : PollerState × Bool :=
  if s.isPolling then (s, false)
  else ({ s with isPolling := true, timer := true }, true)

/-- One interval tick: the `setInterval` callback runs `checkStatus` only
while the timer is registered. -/
def pollerTick (code : String) (s : PollerState) (rpc : RpcResult PollResult) :
    PollerState × List PollerEffect :=
  if s.timer then checkStatus code s rpc else (s, [])

/-- A run of consecutive interval ticks with the given sequence of remote
results, accumulating the emitted effects. -/
def runTicks (code : String) (s : PollerState) :
    List (RpcResult PollResult) → PollerState × List PollerEffect
  | [] => (s, [])
  | r :: rs =>
      let step := pollerTick code s r
      let rest := runTicks code step.1 rs
      (rest.1, step.2 ++ rest.2)

/-! ## Helper lemmas -/

theorem cellGet_buildMatrix (regs : List SessionRegistration)
    (intervals : List SessionInterval) (mid iid : String)
    (hm : mid ∈ regs.map SessionRegistration.member_id)
    (hi : iid ∈ intervals.map SessionInterval.id) :
    cellGet (buildMatrix regs intervals) mid iid = some false := by
  unfold cellGet buildMatrix initialMemberMatrix
  rw [objGet_foldl_const]
  simp only [hm, if_true, Option.some_bind]
  rw [objGet_foldl_const]
  simp [hi]

theorem cellGet_applyPresence_untouched (rows : List IntervalPresence)
    (m : PresenceMatrix) (mid iid : String)
    (h : ∀ p ∈ rows, ¬(p.member_id = mid ∧ p.interval_id = iid)) :
    cellGet (applyPresence m rows) mid iid = cellGet m mid iid := by
  induction rows generalizing m with
  | nil => rfl
  | cons p rest ih =>
    have hp := h p (List.mem_cons_self p rest)
    have hrest : ∀ q ∈ rest, ¬(q.member_id = mid ∧ q.interval_id = iid) :=
      fun q hq => h q (List.mem_cons_of_mem p hq)
    show cellGet (applyPresence _ rest) mid iid = cellGet m mid iid
    rw [ih _ hrest]
    cases hg : objGet m p.member_id with
    | none => simp [hg]
    | some mm =>
      by_cases hmid : p.member_id = mid
      · subst hmid
        have hiid : p.interval_id ≠ iid := fun hh => hp ⟨rfl, hh⟩
        simp [cellGet, hg, objGet_objSet_same, objGet_objSet_other _ _ _ _ hiid]
      · simp [cellGet, hg, objGet_objSet_other _ _ _ _ hmid]

theorem readPresence_after_rollback (s : SessionState) (mid iid : String)
    (mm : MemberMatrix) (hm : objGet s.presence mid = some mm) (v : Bool)
    (mid' iid' : String) :
    readPresence
        (setPresenceCell (setPresenceCell s mid iid v) mid iid
          ((objGet mm iid).getD false)) mid' iid'
      = readPresence s mid' iid' := by
  unfold setPresenceCell
  rw [hm]
  simp only [objGet_objSet_same]
  by_cases hmid : mid = mid'
  · subst hmid
    unfold readPresence cellRead cellGet
    simp only [objGet_objSet_same, hm, Option.bind_some]
    by_cases hiid : iid = iid'
    · subst hiid
      simp [objGet_objSet_same]
    · simp [objGet_objSet_other _ _ _ _ hiid]
  · unfold readPresence cellRead cellGet
    simp [objGet_objSet_other _ _ _ _ hmid]

theorem readAbsent_setAbsentFlag (regs : List SessionRegistration) (k : String)
    (v : Bool) :
    readAbsent (setAbsentFlag regs k v) k = (readAbsent regs k).map (fun _ => v) := by
  induction regs with
  | nil => rfl
  | cons r rest ih =>
    by_cases h : r.id = k
    · simp [readAbsent, setAbsentFlag, List.find?, h]
    · simpa [readAbsent, setAbsentFlag, List.find?, h] using ih

theorem runTicks_stopped (code : String) (s : PollerState)
    (rpcs : List (RpcResult PollResult)) (h : s.timer = false) :
    runTicks code s rpcs = (s, []) := by
  induction rpcs with
  | nil => rfl
  | cons r rs ih => simp [runTicks, pollerTick, h, ih]

theorem request_mem_checkStatus (code : String) (s : PollerState)
    (rpc : RpcResult PollResult) (hc : ¬ code = "") :
    PollerEffect.request code ∈ (checkStatus code s rpc).2 := by
  obtain ⟨d, e⟩ := rpc
  unfold checkStatus
  rw [if_neg hc]
  cases e with
  | some msg => simp
  | none =>
    cases d with
    | none => dsimp only; split <;> simp
    | some result => dsimp only; split <;> simp

/-! ## Concrete instances used by the witnesses -/

def demoIntervals : List SessionInterval :=
  [⟨"i1", "2025-01-01T18:00", "2025-01-01T18:30", 0⟩,
   ⟨"i2", "2025-01-01T18:30", "2025-01-01T19:00", 1⟩,
   ⟨"i3", "2025-01-01T19:00", "2025-01-01T19:30", 2⟩,
   ⟨"i4", "2025-01-01T19:30", "2025-01-01T20:00", 3⟩]

def demoRegs : List SessionRegistration :=
  [⟨"r1", "s1", "m1", false⟩, ⟨"r2", "s1", "m2", false⟩, ⟨"r3", "s1", "m3", false⟩]

def demoReg : SessionRegistration := ⟨"r1", "s1", "m1", false⟩

def demoState : SessionState :=
  { presence := [("m1", [("i1", false)])]
    registrations := [demoReg]
    costs := []
    pollTimer := false }

def demoViewState : SessionState := { demoState with pollTimer := true }

def demoPoller : PollerState :=
  { data := { found := false, total := 0, paid := 0, success := false, details := [] }
    isPolling := true
    timer := true
    error := none }

def resPaid : PollResult :=
  { found := true, total := 100000, paid := 100000, success := true, details := [] }

def resUnpaid : PollResult :=
  { found := true, total := 100000, paid := 0, success := false, details := [] }

def isToast : Effect → Bool
  | .toastError _ => true
  | _ => false

/-! ## Claim theorems -/

/-- C1: after a resync merge installs the authoritative fetched matrix, reading
any presence cell returns exactly the value of the fetched matrix, regardless
of any tentative optimistic value written locally before the merge. -/
theorem merge_then_read_returns_authoritative
    (s : SessionState) (mid iid : String) (v : Bool)
    (regs : List SessionRegistration) (intervals : List SessionInterval)
    (rows : List IntervalPresence) (mid' iid' : String) :
    readPresence
        (mergePresence (setPresenceCell s mid iid v)
          (fetchDataMatrix regs intervals rows)) mid' iid'
      = cellRead (fetchDataMatrix regs intervals rows) mid' iid' := rfl

/-- C5: the resync matrix is dense with default `false`: every
(registration, interval) pair that has no stored presence row reads as an
explicit `some false` entry, never as an absent one; in particular a resync
with zero presence rows yields an all-false matrix. -/
theorem dense_matrix_default_false (regs : List SessionRegistration)
    (intervals : List SessionInterval) (rows : List IntervalPresence)
    (mid iid : String)
    (hm : mid ∈ regs.map SessionRegistration.member_id)
    (hi : iid ∈ intervals.map SessionInterval.id)
    (hr : ∀ p ∈ rows, ¬(p.member_id = mid ∧ p.interval_id = iid)) :
    cellGet (fetchDataMatrix regs intervals rows) mid iid = some false := by
  unfold fetchDataMatrix
  rw [cellGet_applyPresence_untouched _ _ _ _ hr, cellGet_buildMatrix _ _ _ _ hm hi]

/-- Witness for C5: 3 registrations, 4 intervals, zero stored rows. -/
theorem dense_matrix_default_false_witness :
    cellGet (fetchDataMatrix demoRegs demoIntervals []) "m2" "i3" = some false :=
  dense_matrix_default_false demoRegs demoIntervals [] "m2" "i3" (by decide) (by decide)
    (by simp)

/-- C3: when the remote write issued after an optimistic update fails, the
rollback restores every presence-cell read and the absence-flag read to their
pre-mutation values. -/
theorem failed_write_rollback_restores_read :
    (∀ (auth : Bool) (s : SessionState) (mid iid msg : String)
        (cr : RpcResult (List MemberCost)) (mid' iid' : String),
        readPresence (togglePresence auth s mid iid (WriteResult.fault msg) cr).1 mid' iid'
          = readPresence s mid' iid')
    ∧ (∀ (auth : Bool) (s : SessionState) (reg : SessionRegistration) (msg : String)
        (cr : RpcResult (List MemberCost)),
        readAbsent s.registrations reg.id = some reg.is_registered_not_attended →
        readAbsent (toggleAbsent auth s reg (WriteResult.fault msg) cr).1.registrations
            reg.id
          = readAbsent s.registrations reg.id) := by
  constructor
  · intro auth s mid iid msg cr mid' iid'
    cases auth with
    | false => rfl
    | true =>
      cases hg : objGet s.presence mid with
      | none => simp [togglePresence, hg]
      | some mm =>
        simp only [togglePresence, Bool.not_true, Bool.false_eq_true, if_false, hg,
          Bool.not_not]
        exact readPresence_after_rollback s mid iid mm hg _ mid' iid'
  · intro auth s reg msg cr h
    cases auth with
    | false => rfl
    | true =>
      simp only [toggleAbsent, Bool.not_true, Bool.false_eq_true, if_false]
      rw [readAbsent_setAbsentFlag, readAbsent_setAbsentFlag, h]
      simp

/-- Witness for C3: a failed toggle on the demo state leaves both reads at
their pre-mutation values. -/
theorem failed_write_rollback_restores_read_witness :
    readPresence (togglePresence true demoState "m1" "i1" (WriteResult.fault "boom")
        ⟨none, none⟩).1 "m1" "i1"
      = readPresence demoState "m1" "i1"
    ∧ readAbsent (toggleAbsent true demoState demoReg (WriteResult.fault "boom")
        ⟨none, none⟩).1.registrations "r1"
      = readAbsent demoState.registrations "r1" :=
  ⟨failed_write_rollback_restores_read.1 true demoState "m1" "i1" "boom" ⟨none, none⟩
      "m1" "i1",
   failed_write_rollback_restores_read.2 true demoState demoReg "boom" ⟨none, none⟩
      (by decide)⟩

/-- C6 is false as stated: on a failed presence write the code logs to the
console but emits no user-visible toast at all (counterexample at a concrete
failing upsert). -/
theorem failed_toggle_emits_no_toast :
    ¬ ((togglePresence true demoState "m1" "i1" (WriteResult.fault "network error")
        ⟨none, none⟩).2.any isToast = true) := by
  decide

/-- C6 amended: every failed remote write of a presence cell or absence flag
surfaces as a rollback of the specific optimistic cell plus a console error
log (not a user-visible toast), and never aborts the session view. -/
theorem failed_write_rollback_logs_never_aborts
    (s : SessionState) (mid iid : String) (mm : MemberMatrix)
    (reg : SessionRegistration) (msg msg₂ : String)
    (cr cr₂ : RpcResult (List MemberCost))
    (hm : objGet s.presence mid = some mm)
    (hr : readAbsent s.registrations reg.id = some reg.is_registered_not_attended) :
    (∀ mid' iid',
        readPresence (togglePresence true s mid iid (WriteResult.fault msg) cr).1 mid' iid'
          = readPresence s mid' iid')
    ∧ Effect.logError "Error toggling presence:" msg
        ∈ (togglePresence true s mid iid (WriteResult.fault msg) cr).2
    ∧ (∀ e ∈ (togglePresence true s mid iid (WriteResult.fault msg) cr).2,
        isToast e = false)
    ∧ Effect.abortView ∉ (togglePresence true s mid iid (WriteResult.fault msg) cr).2
    ∧ readAbsent (toggleAbsent true s reg (WriteResult.fault msg₂) cr₂).1.registrations
          reg.id
        = readAbsent s.registrations reg.id
    ∧ Effect.logError "Error updating status:" msg₂
        ∈ (toggleAbsent true s reg (WriteResult.fault msg₂) cr₂).2
    ∧ (∀ e ∈ (toggleAbsent true s reg (WriteResult.fault msg₂) cr₂).2,
        isToast e = false)
    ∧ Effect.abortView ∉ (toggleAbsent true s reg (WriteResult.fault msg₂) cr₂).2 := by
  have hP : (togglePresence true s mid iid (WriteResult.fault msg) cr).2
      = [Effect.upsertPresence iid mid (!((objGet mm iid).getD false)),
         Effect.logError "Error toggling presence:" msg] := by
    simp [togglePresence, hm]
  have hA : (toggleAbsent true s reg (WriteResult.fault msg₂) cr₂).2
      = [Effect.updateAbsence reg.id (!reg.is_registered_not_attended),
         Effect.logError "Error updating status:" msg₂] := by
    simp [toggleAbsent]
  refine ⟨?_, ?_, ?_, ?_, ?_, ?_, ?_, ?_⟩
  · intro mid' iid'
    simp only [togglePresence, Bool.not_true, Bool.false_eq_true, if_false, hm,
      Bool.not_not]
    exact readPresence_after_rollback s mid iid mm hm _ mid' iid'
  · rw [hP]; simp
  · rw [hP]
    intro e he
    rcases List.mem_cons.mp he with rfl | he₂
    · rfl
    · rcases List.mem_cons.mp he₂ with rfl | he₃
      · rfl
      · exact absurd he₃ (List.not_mem_nil e)
  · rw [hP]; simp [isToast]
  · simp only [toggleAbsent, Bool.not_true, Bool.false_eq_true, if_false]
    rw [readAbsent_setAbsentFlag, readAbsent_setAbsentFlag, hr]
    simp
  · rw [hA]; simp
  · rw [hA]
    intro e he
    rcases List.mem_cons.mp he with rfl | he₂
    · rfl
    · rcases List.mem_cons.mp he₂ with rfl | he₃
      · rfl
      · exact absurd he₃ (List.not_mem_nil e)
  · rw [hA]; simp [isToast]

/-- Witness for the amended C6 at the demo state. -/
theorem failed_write_rollback_logs_never_aborts_witness :
    Effect.logError "Error toggling presence:" "boom"
      ∈ (togglePresence true demoState "m1" "i1" (WriteResult.fault "boom")
          ⟨none, none⟩).2 :=
  (failed_write_rollback_logs_never_aborts demoState "m1" "i1" [("i1", false)] demoReg
      "boom" "bam" ⟨none, none⟩ ⟨none, none⟩ (by decide) (by decide)).2.1

/-- C7: a failed cost recomputation (error returned, or no data) leaves the
whole state, in particular the cached CostAggregate list, unchanged. -/
theorem failed_cost_recompute_keeps_cache (s : SessionState)
    (d : Option (List MemberCost)) (msg : String) (e : Option String) :
    fetchCosts s ⟨d, some msg⟩ = s ∧ fetchCosts s ⟨none, e⟩ = s := by
  constructor
  · cases d <;> rfl
  · cases e <;> rfl

/-- C10: the presence toggle is a complete no-op — no state change and no
emitted effect, hence no remote write — when the caller is unauthenticated or
the member has no row in the presence matrix. -/
theorem toggle_presence_guard_noop (s : SessionState) (mid iid : String)
    (w : WriteResult) (cr : RpcResult (List MemberCost)) :
    togglePresence false s mid iid w cr = (s, [])
    ∧ (objGet s.presence mid = none → togglePresence true s mid iid w cr = (s, [])) := by
  constructor
  · rfl
  · intro h
    simp [togglePresence, h]

/-- Witness for C10: member m9 has no row in the demo matrix. -/
theorem toggle_presence_guard_noop_witness :
    togglePresence true demoState "m9" "i1" WriteResult.ok ⟨none, none⟩
      = (demoState, []) :=
  (toggle_presence_guard_noop demoState "m9" "i1" WriteResult.ok ⟨none, none⟩).2
    (by decide)

/-- C2: once a poll response reports `success`, the poller records the paid
snapshot, stops its timer and leaves the polling state, and no further status
request is issued by any subsequent tick; a `success:false` response keeps it
polling, with later ticks still issuing requests. -/
theorem poller_success_is_terminal (code : String) (s : PollerState)
    (res res₂ : PollResult)
    (hc : ¬ code = "") (ht : s.timer = true) (hp : s.isPolling = true)
    (hs : res.success = true) (hs₂ : res₂.success = false) :
    ((pollerTick code s ⟨some res, none⟩).1.data.success = true
     ∧ (pollerTick code s ⟨some res, none⟩).1.timer = false
     ∧ (pollerTick code s ⟨some res, none⟩).1.isPolling = false
     ∧ ∀ rpcs : List (RpcResult PollResult),
         runTicks code (pollerTick code s ⟨some res, none⟩).1 rpcs
           = ((pollerTick code s ⟨some res, none⟩).1, []))
    ∧ ((pollerTick code s ⟨some res₂, none⟩).1.isPolling = true
       ∧ (pollerTick code s ⟨some res₂, none⟩).1.timer = true
       ∧ PollerEffect.request code ∈ (pollerTick code s ⟨some res₂, none⟩).2
       ∧ PollerEffect.request code
           ∈ (pollerTick code (pollerTick code s ⟨some res₂, none⟩).1
               ⟨some res₂, none⟩).2) := by
  have h1 : pollerTick code s ⟨some res, none⟩
      = (stopPolling { s with data := res }, [PollerEffect.request code]) := by
    simp [pollerTick, checkStatus, ht, hc, hs]
  have h2 : pollerTick code s ⟨some res₂, none⟩
      = ({ s with data := res₂ }, [PollerEffect.request code]) := by
    simp [pollerTick, checkStatus, ht, hc, hs₂]
  constructor
  · rw [h1]
    exact ⟨hs, rfl, rfl, fun rpcs => runTicks_stopped _ _ _ rfl⟩
  · rw [h2]
    refine ⟨hp, ht, by simp, ?_⟩
    simp only [pollerTick, ht, if_true]
    exact request_mem_checkStatus code _ _ hc

/-- Witness for C2 with code ABC123: a paid response stops the timer and two
queued later responses produce no request; an unpaid response keeps polling. -/
theorem poller_success_is_terminal_witness :
    (pollerTick "ABC123" demoPoller ⟨some resPaid, none⟩).1.timer = false
    ∧ runTicks "ABC123" (pollerTick "ABC123" demoPoller ⟨some resPaid, none⟩).1
        [⟨some resUnpaid, none⟩, ⟨some resPaid, none⟩]
        = ((pollerTick "ABC123" demoPoller ⟨some resPaid, none⟩).1, [])
    ∧ (pollerTick "ABC123" demoPoller ⟨some resUnpaid, none⟩).1.isPolling = true := by
  have h := poller_success_is_terminal "ABC123" demoPoller resPaid resUnpaid
    (by decide) rfl rfl rfl rfl
  exact ⟨h.1.2.1, h.1.2.2.2 _, h.2.1⟩

/-- C8: while the timer is active, a failed status request is logged, the
error surfaces in `error`, the rest of the poller state (snapshot, polling
flag, timer) is untouched, and the next tick issues another request whatever
its outcome. -/
theorem failed_status_request_keeps_polling (code : String) (s : PollerState)
    (msg : String) (d : Option PollResult) (rpc₂ : RpcResult PollResult)
    (hc : ¬ code = "") (ht : s.timer = true) :
    (pollerTick code s ⟨d, some msg⟩).1.data = s.data
    ∧ (pollerTick code s ⟨d, some msg⟩).1.isPolling = s.isPolling
    ∧ (pollerTick code s ⟨d, some msg⟩).1.timer = s.timer
    ∧ (pollerTick code s ⟨d, some msg⟩).1.error = some msg
    ∧ PollerEffect.logError "Polling error:" msg ∈ (pollerTick code s ⟨d, some msg⟩).2
    ∧ PollerEffect.request code ∈ (pollerTick code s ⟨d, some msg⟩).2
    ∧ PollerEffect.request code
        ∈ (pollerTick code (pollerTick code s ⟨d, some msg⟩).1 rpc₂).2 := by
  have h1 : pollerTick code s ⟨d, some msg⟩
      = ({ s with error := some msg },
         [PollerEffect.request code, PollerEffect.logError "Polling error:" msg]) := by
    simp [pollerTick, checkStatus, ht, hc]
  rw [h1]
  refine ⟨rfl, rfl, rfl, rfl, by simp, by simp, ?_⟩
  simp only [pollerTick, ht, if_true]
  exact request_mem_checkStatus code _ _ hc

/-- Witness for C8: a failed request on the active demo poller keeps it
polling and the follow-up tick still issues a request. -/
theorem failed_status_request_keeps_polling_witness :
    (pollerTick "ABC123" demoPoller ⟨none, some "boom"⟩).1.isPolling = true
    ∧ PollerEffect.request "ABC123"
        ∈ (pollerTick "ABC123" (pollerTick "ABC123" demoPoller ⟨none, some "boom"⟩).1
            ⟨some resUnpaid, none⟩).2 := by
  have h := failed_status_request_keeps_polling "ABC123" demoPoller "boom" none
    ⟨some resUnpaid, none⟩ (by decide) rfl
  exact ⟨h.2.1, h.2.2.2.2.2.2⟩

/-- C9: for both pollers, starting while already polling is a no-op that
creates no second timer and changes no state. -/
theorem start_polling_noop_when_active (s : PollerState) (t : SessionState)
    (hp : s.isPolling = true) (ht : t.pollTimer = true) :
    startPolling s = (s, false) ∧ viewStartPolling t = (t, false) := by
  constructor
  · simp [startPolling, hp]
  · simp [viewStartPolling, ht]

/-- Witness for C9 on active demo instances of both pollers. -/
theorem start_polling_noop_when_active_witness :
    startPolling demoPoller = (demoPoller, false)
    ∧ viewStartPolling demoViewState = (demoViewState, false) :=
  start_polling_noop_when_active demoPoller demoViewState rfl rfl

/-- C4 is false as stated: on a full refresh the interval fetch precedes the
registration fetch, not the other way around (counterexample on a concrete
full-refresh trace). -/
theorem fetch_order_claim_false_on_full_refresh :
    ¬ ((fetchDataTrace false [] demoIntervals false).findIdx isRegistrationsFetch
        < (fetchDataTrace false [] demoIntervals false).findIdx isIntervalsFetch) := by
  decide

/-- C4 amended: on a full refresh the resync fetches intervals before
registrations and registrations before the presence rows, which are filtered
to the freshly fetched interval set; on a lightweight resync the interval
fetch is skipped, registrations still precede presence, and presence is
filtered to the previously fetched interval set; the fetched rows are folded
over the dense all-false matrix. -/
theorem fetch_order_intervals_before_registrations
    (prev fetched : List SessionInterval) (closed : Bool) :
    ((fetchDataTrace false prev fetched closed).findIdx isIntervalsFetch
       < (fetchDataTrace false prev fetched closed).findIdx isRegistrationsFetch
     ∧ (fetchDataTrace false prev fetched closed).findIdx isRegistrationsFetch
       < (fetchDataTrace false prev fetched closed).findIdx isPresenceFetch
     ∧ FetchOp.fetchPresence (fetched.map SessionInterval.id)
         ∈ fetchDataTrace false prev fetched closed)
    ∧ (FetchOp.fetchIntervals ∉ fetchDataTrace true prev fetched closed
       ∧ (fetchDataTrace true prev fetched closed).findIdx isRegistrationsFetch
         < (fetchDataTrace true prev fetched closed).findIdx isPresenceFetch
       ∧ FetchOp.fetchPresence (prev.map SessionInterval.id)
           ∈ fetchDataTrace true prev fetched closed)
    ∧ (∀ (regs : List SessionRegistration) (table : List IntervalPresence) (ro : Bool),
        fetchDataResult ro prev fetched regs table
          = fetchDataMatrix regs (if ro then prev else fetched)
              (table.filter (fun p =>
                ((if ro then prev else fetched).map SessionInterval.id).contains
                  p.interval_id))) := by
  have hI : (fetchDataTrace false prev fetched closed).findIdx isIntervalsFetch = 1 := by
    cases closed <;> rfl
  have hR : (fetchDataTrace false prev fetched closed).findIdx isRegistrationsFetch
      = 3 := by
    cases closed <;> rfl
  have hQ : (fetchDataTrace false prev fetched closed).findIdx isPresenceFetch = 4 := by
    cases closed <;> rfl
  have hRl : (fetchDataTrace true prev fetched closed).findIdx isRegistrationsFetch
      = 1 := by
    cases closed <;> rfl
  have hQl : (fetchDataTrace true prev fetched closed).findIdx isPresenceFetch = 2 := by
    cases closed <;> rfl
  refine ⟨⟨?_, ?_, ?_⟩, ⟨?_, ?_, ?_⟩, fun regs table ro => rfl⟩
  · rw [hI, hR]; omega
  · rw [hR, hQ]; omega
  · cases closed <;> simp [fetchDataTrace]
  · cases closed <;> simp [fetchDataTrace]
  · rw [hRl, hQl]; omega
  · cases closed <;> simp [fetchDataTrace]
